import Mathlib

set_option maxRecDepth 4000

/-!
Verification of the BedJet BLE climate integration,
`custom_components/bedjet/climate.py`.

The Python module is shallowly embedded:

* pure helpers (`FanMode.get_fan_mode`, `PresetMode.to_hvac`, the
  decoder functions nested in `handle_data`, the command encoders)
  become Lean functions;
* the notification handler `handle_data` becomes an explicit
  state-passing function on `DeviceStatus`; a Python exception is an
  `Except.error` carrying the entity state as already mutated when the
  exception was raised;
* the connect retry loop becomes a function of a transport stub
  (which attempts succeed) plus a stub for errors of the defensive
  disconnect;
* Python float expressions are modelled as exact fractions (`Frac`).
  Every float the source builds has a small integer numerator over
  denominator 9 or 5 (after clearing), so IEEE double rounding is
  always at distance less than 1/18 from the exact value and can never
  change the integer produced by `round(...)` or `int(...)`.
-/

namespace Bedjet

/-- Exact unreduced fraction. Used to model the Python float expressions
of the source; all denominators built by the source are positive. -/
structure Frac where
  num : ℤ
  den : ℤ
deriving Repr, DecidableEq

instance : Add Frac := ⟨fun x y => ⟨x.num * y.den + y.num * x.den, x.den * y.den⟩⟩

instance : Sub Frac := ⟨fun x y => ⟨x.num * y.den - y.num * x.den, x.den * y.den⟩⟩

instance : Div Frac := ⟨fun x y => ⟨x.num * y.den, x.den * y.num⟩⟩

instance : NatCast Frac := ⟨fun n => ⟨(n : ℤ), 1⟩⟩

instance : IntCast Frac := ⟨fun n => ⟨n, 1⟩⟩

instance (n : ℕ) : OfNat Frac n := ⟨⟨(n : ℤ), 1⟩⟩

/-- Floor of an exact fraction with positive denominator. -/
def Frac.floor (x : Frac) : ℤ := Int.fdiv x.num x.den

/-- Python built-in `round` on an exact value: nearest integer, ties to
even. (The source only ever rounds values whose fractional part is a
multiple of 1/9 or 1/5, so a tie never actually occurs.) -/
def pyRound (x : Frac) : ℤ :=
  let y := x + 1 / 2
  let f := y.floor
  if y.num = f * y.den ∧ f % 2 ≠ 0 then f - 1 else f

/-- Python built-in `int(...)` applied to a float: truncation toward 0. -/
def pyInt (x : Frac) : ℤ := Int.tdiv x.num x.den

/-- Rounding to the nearest integer, halves up; used for the spec side
of claims that say "rounded to nearest" / `round(...)`. On every
argument compared against the code a tie is impossible, so the tie
convention is irrelevant. -/
def roundNearest (x : Frac) : ℤ := (x + 1 / 2).floor

/-- `class FanMode(Enum)`: min = 10, low = 25, medium = 50, high = 75,
max = 100. -/
inductive FanMode
  | min
  | low
  | medium
  | high
  | max
deriving Repr, DecidableEq

/-- The numeric `value` of each `FanMode` member. -/
def FanMode.value : FanMode → ℤ
  | .min => 10
  | .low => 25
  | .medium => 50
  | .high => 75
  | .max => 100

/-- `FanMode.get_fan_mode(fan_pct)`. Python's `if not fan_pct` is true
both for `None` and for `0`, so both give `None`. The
`for fan_mode in FanMode` loop is unrolled in declaration order
(min, low, medium, high, max); the first member with
`fan_pct <= fan_mode.value` is returned, else `None`. -/
def FanMode.get_fan_mode (fan_pct : Option ℤ) : Option FanMode :=
  match fan_pct with
  | none => none
  | some p =>
    if p = 0 then none
    else if p ≤ 10 then some .min
    else if p ≤ 25 then some .low
    else if p ≤ 50 then some .medium
    else if p ≤ 75 then some .high
    else if p ≤ 100 then some .max
    else none

/-- `class HVACMode(Enum)`: off, cool, heat, dry (the HA string values
are irrelevant to the claims). -/
inductive HVACMode
  | off
  | cool
  | heat
  | dry
deriving Repr, DecidableEq

/-- `class PresetMode(Enum)`: the four HVAC names plus turbo, ext_ht,
m1, m2, m3. -/
inductive PresetMode
  | off
  | cool
  | heat
  | dry
  | turbo
  | ext_ht
  | m1
  | m2
  | m3
deriving Repr, DecidableEq

/-- `PresetMode.to_hvac(self)`: a dict lookup `map.get(self)`. The dict
has entries for off, cool, heat, dry, turbo and ext_ht only, so for
m1, m2 and m3 the lookup returns `None`. -/
def PresetMode.to_hvac : PresetMode → Option HVACMode
  | .off => some .off
  | .cool => some .cool
  | .heat => some .heat
  | .dry => some .dry
  | .turbo => some .heat
  | .ext_ht => some .heat
  | .m1 => none
  | .m2 => none
  | .m3 => none

/-- Temperature decoding shared by `get_current_temperature` (byte 7)
and `get_target_temperature` (byte 8):
`round(((b - 0x26) + 66) - ((b - 0x26) / 9))`. -/
def tempFromByte (b : ℕ) : ℤ :=
  pyRound ((((b : Frac) - 0x26) + 66) - (((b : Frac) - 0x26) / 9))

/-- `get_current_temperature(value)`; `none` is Python's `IndexError`
when the payload is shorter than 8 bytes. -/
def get_current_temperature (v : List ℕ) : Option ℤ :=
  (v[7]?).map tempFromByte

/-- `get_target_temperature(value)`. -/
def get_target_temperature (v : List ℕ) : Option ℤ :=
  (v[8]?).map tempFromByte

/-- `get_time(value)`: `value[4]*60*60 + value[5]*60 + value[6]`. -/
def get_time (v : List ℕ) : Option ℤ :=
  match (v[4]? : Option ℕ), (v[5]? : Option ℕ), (v[6]? : Option ℕ) with
  | some h, some m, some s => some ((h : ℤ) * 60 * 60 + (m : ℤ) * 60 + (s : ℤ))
  | _, _, _ => none

/-- `get_timestring(value)`: `str(value[4]) + ":" + str(value[5]) + ":"
+ str(value[6])`. -/
def get_timestring (v : List ℕ) : Option String :=
  match v[4]?, v[5]?, v[6]? with
  | some h, some m, some s => some (toString h ++ ":" ++ toString m ++ ":" ++ toString s)
  | _, _, _ => none

/-- `get_fan_pct(value)`: `value[10] * 5`. -/
def get_fan_pct (v : List ℕ) : Option ℤ :=
  (v[10]? : Option ℕ).map (fun b => (b : ℤ) * 5)

/-- The if-chain of `get_preset_mode(value)` once `value[14]` and
`value[13]` have been read, in source order. `none` is Python falling
off the function: the mode is `None`. -/
def presetFromBytes (b13 b14 : ℕ) : Option PresetMode :=
  if b14 = 0x50 ∧ b13 = 0x14 then some .off
  else if b14 = 0x34 then some .cool
  else if b14 = 0x56 then some .turbo
  else if b14 = 0x50 ∧ b13 = 0x2d then some .heat
  else if b14 = 0x3e then some .dry
  else if b14 = 0x43 then some .ext_ht
  else if b14 = 0x20 then some .m1
  else if b14 = 0x21 then some .m2
  else if b14 = 0x22 then some .m3
  else none

/-- `get_preset_mode(value)`. The outer `none` is an `IndexError`
(payload shorter than 15 bytes; `value[14]` is evaluated first, and
`value[13]` is only ever read when byte 14 exists, hence exists too —
the `getD` default is never taken on a list). -/
def get_preset_mode (v : List ℕ) : Option (Option PresetMode) :=
  match v[14]? with
  | none => none
  | some b14 => some (presetFromBytes ((v[13]?).getD 0) b14)

/-- `get_hvac_mode(value)`: `get_preset_mode(value).to_hvac()`. The
outer `none` is an exception: either the `IndexError` from
`get_preset_mode`, or the `AttributeError` raised by calling
`.to_hvac()` on `None` when no discriminator matched. When the preset
is m1/m2/m3 the dict lookup inside `to_hvac` yields `None` without
raising. -/
def get_hvac_mode (v : List ℕ) : Option (Option HVACMode) :=
  match get_preset_mode v with
  | none => none
  | some none => none
  | some (some p) => some p.to_hvac

/-- The mutable status fields of `BedjetDeviceEntity` (all start as
`None` in `__init__`). `last_seen` is an abstract timestamp tick. -/
structure DeviceStatus where
  current_temperature : Option ℤ
  target_temperature : Option ℤ
  time : Option ℤ
  timestring : Option String
  fan_pct : Option ℤ
  hvac_mode : Option HVACMode
  preset_mode : Option PresetMode
  last_seen : Option ℕ
deriving Repr, DecidableEq

/-- The entity state right after `__init__`. -/
def initialStatus : DeviceStatus :=
  ⟨none, none, none, none, none, none, none, none⟩

/-- `handle_data(self, handle, value)`: the eight assignments in source
order. Each right-hand side is evaluated before its assignment; a
getter returning the outer `none` models the exception that aborts the
handler, and the `Except.error` carries the fields already assigned by
the time it was raised. `now` models `datetime.now()`. -/
def handle_data (s : DeviceStatus) (now : ℕ) (v : List ℕ) :
    Except DeviceStatus DeviceStatus :=
  match get_current_temperature v with
  | none => .error s
  | some ct =>
  let s1 := { s with current_temperature := some ct }
  match get_target_temperature v with
  | none => .error s1
  | some tt =>
  let s2 := { s1 with target_temperature := some tt }
  match get_time v with
  | none => .error s2
  | some t =>
  let s3 := { s2 with time := some t }
  match get_timestring v with
  | none => .error s3
  | some ts =>
  let s4 := { s3 with timestring := some ts }
  match get_fan_pct v with
  | none => .error s4
  | some fp =>
  let s5 := { s4 with fan_pct := some fp }
  match get_hvac_mode v with
  | none => .error s5
  | some hm =>
  let s6 := { s5 with hvac_mode := hm }
  match get_preset_mode v with
  | none => .error s6
  | some pm =>
  let s7 := { s6 with preset_mode := pm }
  .ok { s7 with last_seen := some now }

/-- The status produced from one payload alone (pure decoding); `none`
when `handle_data` would raise. -/
def decode (now : ℕ) (v : List ℕ) : Option DeviceStatus :=
  match get_current_temperature v, get_target_temperature v, get_time v,
      get_timestring v, get_fan_pct v, get_hvac_mode v, get_preset_mode v with
  | some ct, some tt, some t, some ts, some fp, some hm, some pm =>
    some ⟨some ct, some tt, some t, some ts, some fp, hm, pm, some now⟩
  | _, _, _, _, _, _, _ => none

/-- The connect retry loop of `BedjetDeviceEntity.connect`, iteration
index `i`, remaining iterations as fuel. `stub i` tells whether the
i-th `await self.client.connect()` call succeeds (success makes
`is_connected` true); on an exception the source runs a defensive
`disconnect` (whose `BleakError`, stub `dd i`, is caught and only
logged) and then sleeps `(i+1) * reconnect_interval` seconds with
`reconnect_interval = 10`. Returns (attempts made, backoff waits slept,
connected). -/
def connectGo (stub dd : ℕ → Bool) (i : ℕ) : ℕ → ℕ × List ℕ × Bool
  | 0 => (0, [], false)
  | r + 1 =>
    if stub i then (1, [], true)
    else
      let rest := connectGo stub dd (i + 1) r
      if dd i then (rest.1 + 1, (i + 1) * 10 :: rest.2.1, rest.2.2)
      else (rest.1 + 1, (i + 1) * 10 :: rest.2.1, rest.2.2)

/-- Observable outcome of one `connect(max_retries)` call. `failure`
carries the data of the final `raise Exception(f'Failed to connect to
...mac... after ...max_retries... attempts.')`. `callbackRegistered`
records whether this call ran
`self.client.set_disconnected_callback(self.on_disconnect)`, which the
loop does exactly when an attempt found `is_connected` true. -/
structure ConnectOutcome where
  attemptsMade : ℕ
  waits : List ℕ
  connected : Bool
  callbackRegistered : Bool
  failure : Option (String × ℕ)
deriving Repr, DecidableEq

/-- `BedjetDeviceEntity.connect(max_retries)`. -/
def connect (stub dd : ℕ → Bool) (mac : String) (max_retries : ℕ) :
    ConnectOutcome :=
  let r := connectGo stub dd 0 max_retries
  ⟨r.1, r.2.1, r.2.2, r.2.2, if r.2.2 then none else some (mac, max_retries)⟩

/-- `connect` with the source's default `max_retries=10`. -/
def connectDefault (stub dd : ℕ → Bool) (mac : String) : ConnectOutcome :=
  connect stub dd mac 10

/-- Session events that touch the bleak disconnected callback:
a failed connect attempt changes nothing, a successful one runs
`set_disconnected_callback(self.on_disconnect)`, and both
`on_disconnect` and the explicit `disconnect` start with
`set_disconnected_callback(None)`. -/
inductive SEvent
  | connectFail
  | connectOk
  | unexpectedDisconnect
  | explicitDisconnect
deriving Repr, DecidableEq

/-- Whether `__init__` leaves a disconnected callback registered:
`BleakClient(device, disconnected_callback=self.on_disconnect)` does. -/
def initCallbackRegistered : Bool := true

/-- Effect of one session event on "a disconnected callback is
registered on the client". -/
def sstep (cb : Bool) : SEvent → Bool
  | .connectFail => cb
  | .connectOk => true
  | .unexpectedDisconnect => false
  | .explicitDisconnect => false

/-- Whether a callback is registered after a list of session events,
starting from the freshly constructed entity. -/
def srun (evs : List SEvent) : Bool := evs.foldl sstep initCallbackRegistered

/-- `send_command(self, command)`: the write happens only
`if self.is_connected`; otherwise the command is dropped. The result is
the list of GATT writes performed. -/
def send_command (is_connected : Bool) (command : List ℤ) : List (List ℤ) :=
  if is_connected then [command] else []

/-- `set_mode(self, mode)`: `send_command([0x01, mode])`. -/
def set_mode (is_connected : Bool) (mode : ℤ) : List (List ℤ) :=
  send_command is_connected [0x01, mode]

/-- `set_time(self, minutes)`:
`send_command([0x02, minutes // 60, minutes % 60])` (Python `//` and
`%` are floor division and floor modulus). -/
def set_time (is_connected : Bool) (minutes : ℤ) : List (List ℤ) :=
  send_command is_connected [0x02, Int.fdiv minutes 60, Int.fmod minutes 60]

/-- `async_set_fan_mode(self, fan_mode)` after the argument has been
resolved to a percent: `if not (fan_pct >= 0 and fan_pct <= 100):
return`, else `send_command([0x07, round(fan_pct/5)-1])`. -/
def async_set_fan_mode (is_connected : Bool) (fan_pct : ℤ) : List (List ℤ) :=
  if 0 ≤ fan_pct ∧ fan_pct ≤ 100 then
    send_command is_connected [0x07, pyRound ((fan_pct : Frac) / 5) - 1]
  else []

/-- The byte computed by `async_set_temperature`:
`(int((temp - 60) / 9) + (temp - 66)) + 0x26` (`temp` is already an
integer, so `round(float(temperature))` is the identity). -/
def temp_byte (temp : ℤ) : ℤ :=
  pyInt (((temp : Frac) - 60) / 9) + (temp - 66) + 0x26

/-- `async_set_temperature(self, **kwargs)`:
`send_command([0x03, temp_byte])`. -/
def async_set_temperature (is_connected : Bool) (temp : ℤ) : List (List ℤ) :=
  send_command is_connected [0x03, temp_byte temp]

/-- `async_set_hvac_mode(self, hvac_mode)`: `set_mode` with the
command byte of the mode, then `set_time(600)`. The byte is a
parameter here: the `BEDJET_COMMANDS` table lives in `const.py`. -/
def async_set_hvac_mode (is_connected : Bool) (mode_byte : ℤ) : List (List ℤ) :=
  set_mode is_connected mode_byte ++ set_time is_connected 600

/-- `async_set_preset_mode(self, preset_mode)`: `set_mode` with the
preset's command byte (again a parameter, table in `const.py`). -/
def async_set_preset_mode (is_connected : Bool) (mode_byte : ℤ) : List (List ℤ) :=
  set_mode is_connected mode_byte

/-- Claim C3's temperature formula read literally:
`((payload[i] - 0x26) + 66) - integerDivide(payload[i] - 0x26, 9)`. -/
def specTempFormulaC3 (b : ℕ) : ℤ :=
  (((b : ℤ) - 0x26) + 66) - Int.fdiv ((b : ℤ) - 0x26) 9

/-- Closed integer form of what the code computes for a temperature
byte: the rounding applies to the whole expression with exact division,
so the decoded value is `(d + 66) - round(d/9)` with `d = b - 0x26`,
and round-to-nearest of `d/9` is `fdiv (2*d + 9) 18`. -/
def tempNearest (b : ℕ) : ℤ :=
  (((b : ℤ) - 0x26) + 66) - Int.fdiv (2 * ((b : ℤ) - 0x26) + 9) 18

/-- Spec-side preset discriminator table of §4.1 / claim C4: `b14`
against the fixed bytes, with 0x50 disambiguated by `b13`. -/
def specPresetTable (b13 b14 : ℕ) : Option PresetMode :=
  if b14 = 0x34 then some .cool
  else if b14 = 0x56 then some .turbo
  else if b14 = 0x3e then some .dry
  else if b14 = 0x43 then some .ext_ht
  else if b14 = 0x20 then some .m1
  else if b14 = 0x21 then some .m2
  else if b14 = 0x22 then some .m3
  else if b14 = 0x50 then
    if b13 = 0x14 then some .off
    else if b13 = 0x2d then some .heat
    else none
  else none

/-- Claim C5's SetTemperature byte formula:
`integerDivide(temp - 60, 9) + (temp - 66) + 0x26`. -/
def specTempByte (temp : ℤ) : ℤ :=
  Int.fdiv (temp - 60) 9 + (temp - 66) + 0x26

/-- The linear backoff waits of `connect`: `(i+1)*10` seconds after the
i-th failed attempt. -/
def backoffWaits (n : ℕ) : List ℕ :=
  (List.range n).map (fun j => (j + 1) * 10)

/-- Backoff waits of the remaining loop when the next attempt has index
`i`: `(i+j+1)*10` for `j < k`. -/
def backoffWaitsFrom (i k : ℕ) : List ℕ :=
  (List.range k).map (fun j => (i + j + 1) * 10)

/-- Fixture: a previously stored status, as if decoded from an earlier
notification. -/
def prevStatus : DeviceStatus :=
  ⟨some 80, some 82, some 100, some ("0:1:40"), some 25,
    some HVACMode.heat, some PresetMode.heat, some 0⟩

/-- Fixture: a 15-byte payload whose discriminator bytes
`value[13] = 0, value[14] = 0` match no preset. -/
def badDiscriminatorPayload : List ℕ :=
  [0, 0, 0, 0, 2, 30, 9, 43, 50, 0, 4, 0, 0, 0, 0]

/-- Fixture: the mixed status that `handle_data` leaves behind on
`badDiscriminatorPayload`: temperatures, time and fan from the new
payload, mode fields and timestamp still from `prevStatus`. -/
def mixedStatus : DeviceStatus :=
  ⟨some 70, some 77, some 9009, some ("2:30:9"), some 20,
    some HVACMode.heat, some PresetMode.heat, some 0⟩

/-- Fixture: a well-formed 15-byte payload (preset Off: bytes 0x14,
0x50). -/
def okPayload : List ℕ :=
  [0, 0, 0, 0, 1, 2, 3, 38, 38, 0, 10, 0, 0, 0x14, 0x50]

/-- Fixture: the status decoded from `okPayload` at tick 1. -/
def okStatus : DeviceStatus :=
  ⟨some 66, some 66, some 3723, some ("1:2:3"), some 50,
    some HVACMode.off, some PresetMode.off, some 1⟩

/-- Fixture: a 5-byte payload (claim C2's malformed notification). -/
def shortPayload : List ℕ := [0, 0, 0, 0, 0]

/-- Fixture: a 15-byte payload with temperature byte `payload[7] = 43`
(= 0x2B), on which the C3 formula and the code disagree. -/
def c3Payload : List ℕ :=
  [0, 0, 0, 0, 0, 0, 0, 43, 38, 0, 0, 0, 0, 0x2d, 0x50]

/-- Fixture: a device address. -/
def testMac : String := "00:11:22:33:44:55"

/-! Helper lemmas. -/

/-- For byte-range inputs, the decoded temperature has the closed
integer form `tempNearest`. -/
theorem tempFromByte_eq_tempNearest :
    ∀ b : ℕ, b < 256 → tempFromByte b = tempNearest b := by decide

/-- On integer percents, Python's banker rounding of `p/5` agrees with
plain nearest rounding: the fractional part is a multiple of 1/5, so a
tie is impossible. -/
theorem pyRound_div5_eq :
    ∀ n : ℕ, n < 101 →
      pyRound (((n : ℤ) : Frac) / 5) = roundNearest (((n : ℤ) : Frac) / 5) := by
  decide

/-- For in-range temperatures, the truncation `int((temp - 60) / 9)` of
the code equals the floor division of the spec formula. -/
theorem temp_byte_eq_spec :
    ∀ n : ℕ, n < 44 → temp_byte (66 + (n : ℤ)) = specTempByte (66 + (n : ℤ)) := by
  decide

/-- `handle_data` succeeds with result `sr` exactly when the pure
decoder produces `sr`; in particular a successful result does not
depend on the previously stored status. -/
theorem handle_data_ok_iff (s : DeviceStatus) (now : ℕ) (v : List ℕ)
    (sr : DeviceStatus) :
    handle_data s now v = Except.ok sr ↔ decode now v = some sr := by
  unfold handle_data decode
  cases get_current_temperature v <;>
    cases get_target_temperature v <;>
      cases get_time v <;>
        cases get_timestring v <;>
          cases get_fan_pct v <;>
            cases get_hvac_mode v <;>
              cases get_preset_mode v <;>
                simp

/-- Unfolding of the shifted backoff list. -/
theorem backoffWaitsFrom_succ (i k : ℕ) :
    backoffWaitsFrom i (k + 1) = (i + 1) * 10 :: backoffWaitsFrom (i + 1) k := by
  unfold backoffWaitsFrom
  rw [List.range_succ_eq_map, List.map_cons, List.map_map]
  congr 1
  apply List.map_congr_left
  intro j hj
  simp only [Function.comp_apply]
  omega

/-- The shifted backoff list starting at attempt 0 is the claim's wait
sequence 10, 20, 30, ... -/
theorem backoffWaitsFrom_zero (n : ℕ) : backoffWaitsFrom 0 n = backoffWaits n := by
  simp [backoffWaitsFrom, backoffWaits]

/-- The loop never makes more attempts than its fuel. -/
theorem connectGo_attempts_le (stub dd : ℕ → Bool) :
    ∀ r i : ℕ, (connectGo stub dd i r).1 ≤ r := by
  intro r
  induction r with
  | zero => intro i; simp [connectGo]
  | succ n ih =>
    intro i
    cases h : stub i with
    | true => simp [connectGo, h]
    | false =>
      have := ih (i + 1)
      cases hdd : dd i <;> simp [connectGo, h, hdd] <;> omega

/-- The outcome of the loop does not depend on whether the defensive
disconnects raise: their `BleakError` is caught and only logged. -/
theorem connectGo_dd_irrelevant (stub dd dd2 : ℕ → Bool) :
    ∀ r i : ℕ, connectGo stub dd i r = connectGo stub dd2 i r := by
  intro r
  induction r with
  | zero => intro i; rfl
  | succ n ih =>
    intro i
    cases h : stub i with
    | true => simp [connectGo, h]
    | false =>
      cases hdd : dd i <;> cases hdd2 : dd2 i <;>
        simp [connectGo, h, hdd, hdd2, ih (i + 1)]

/-- If the first success is the k-th attempt (0-based) and there is
fuel to reach it, the loop stops there with k failed-attempt waits. -/
theorem connectGo_success (stub dd : ℕ → Bool) :
    ∀ k i r : ℕ, k < r → stub (i + k) = true →
      (∀ j, j < k → stub (i + j) = false) →
      connectGo stub dd i r = (k + 1, backoffWaitsFrom i k, true) := by
  intro k
  induction k with
  | zero =>
    intro i r hr hs hf
    obtain ⟨m, rfl⟩ : ∃ m, r = m + 1 := ⟨r - 1, by omega⟩
    have h0 : stub i = true := by simpa using hs
    simp [connectGo, h0, backoffWaitsFrom]
  | succ k ih =>
    intro i r hr hs hf
    obtain ⟨m, rfl⟩ : ∃ m, r = m + 1 := ⟨r - 1, by omega⟩
    have h0 : stub i = false := by simpa using hf 0 (by omega)
    have hs2 : stub (i + 1 + k) = true := by
      have e : i + 1 + k = i + (k + 1) := by omega
      rw [e]; exact hs
    have hf2 : ∀ j, j < k → stub (i + 1 + j) = false := by
      intro j hj
      have e : i + 1 + j = i + (j + 1) := by omega
      rw [e]; exact hf (j + 1) (by omega)
    have hrec := ih (i + 1) m (by omega) hs2 hf2
    rw [backoffWaitsFrom_succ]
    cases hdd : dd i <;> simp [connectGo, h0, hdd, hrec]

/-- If every attempt fails, the loop burns all its fuel. -/
theorem connectGo_allfail (stub dd : ℕ → Bool) (h : ∀ j, stub j = false) :
    ∀ r i : ℕ, connectGo stub dd i r = (r, backoffWaitsFrom i r, false) := by
  intro r
  induction r with
  | zero => intro i; simp [connectGo, backoffWaitsFrom]
  | succ n ih =>
    intro i
    rw [backoffWaitsFrom_succ]
    cases hdd : dd i <;> simp [connectGo, h i, hdd, ih (i + 1)]

/-- The source's preset if-chain computes exactly the spec's
discriminator table. -/
theorem presetFromBytes_eq_spec (b13 b14 : ℕ) :
    presetFromBytes b13 b14 = specPresetTable b13 b14 := by
  unfold presetFromBytes specPresetTable
  by_cases h50 : b14 = 0x50
  · subst h50
    by_cases ha : b13 = 0x14
    · simp [ha]
    · by_cases hb : b13 = 0x2d <;> simp [ha, hb]
  · by_cases c1 : b14 = 0x34
    · subst c1; simp
    · by_cases c2 : b14 = 0x56
      · subst c2; simp
      · by_cases c3 : b14 = 0x3e
        · subst c3; simp
        · by_cases c4 : b14 = 0x43
          · subst c4; simp
          · by_cases c5 : b14 = 0x20
            · subst c5; simp
            · by_cases c6 : b14 = 0x21
              · subst c6; simp
              · by_cases c7 : b14 = 0x22
                · subst c7; simp
                · simp [h50, c1, c2, c3, c4, c5, c6, c7]

/-- A fold over events that are all failed connect attempts keeps the
callback flag unchanged. -/
theorem foldl_sstep_connectFail :
    ∀ evs : List SEvent, (∀ e ∈ evs, e = SEvent.connectFail) →
      ∀ cb : Bool, evs.foldl sstep cb = cb := by
  intro evs
  induction evs with
  | nil => intro _ cb; rfl
  | cons e es ih =>
    intro h cb
    have he : e = SEvent.connectFail := h e (by simp)
    subst he
    rw [List.foldl_cons]
    exact ih (fun x hx => h x (by simp [hx])) cb

/-! Claims. -/

/-- C1, counterexample: the preset-to-operating-mode projection is not
total over all nine presets — on Memory1 (`m1`) the dict lookup in
`to_hvac` yields a missing result, refuting "for every preset value it
returns exactly one operating mode and never a missing/None result". -/
theorem C1_counterexample :
    ¬ ∀ p : PresetMode, (PresetMode.to_hvac p).isSome = true := by
  intro h
  have := h PresetMode.m1
  simp [PresetMode.to_hvac] at this

/-- C1, amended: `to_hvac` is a pure function (hence deterministic)
whose value on each of the nine presets is fixed: the four shared names
map to themselves, Turbo and ExtendedHeat both map to Heat, and the
three memory presets map to no operating mode (`None`). -/
theorem C1_theorem :
    PresetMode.to_hvac PresetMode.off = some HVACMode.off
  ∧ PresetMode.to_hvac PresetMode.cool = some HVACMode.cool
  ∧ PresetMode.to_hvac PresetMode.heat = some HVACMode.heat
  ∧ PresetMode.to_hvac PresetMode.dry = some HVACMode.dry
  ∧ PresetMode.to_hvac PresetMode.turbo = some HVACMode.heat
  ∧ PresetMode.to_hvac PresetMode.ext_ht = some HVACMode.heat
  ∧ PresetMode.to_hvac PresetMode.m1 = none
  ∧ PresetMode.to_hvac PresetMode.m2 = none
  ∧ PresetMode.to_hvac PresetMode.m3 = none := by
  decide

/-- C2, counterexample: on a 15-byte payload whose discriminator bytes
match no preset, `handle_data` raises only after the temperature, time
and fan fields were already assigned: the stored status afterwards
(`mixedStatus`) has its temperature from the new payload but its preset
from the old one — it mixes two notifications, refuting "no previously
stored status field is mutated". -/
theorem C2_counterexample :
    handle_data prevStatus 7 badDiscriminatorPayload = Except.error mixedStatus
  ∧ mixedStatus.current_temperature ≠ prevStatus.current_temperature
  ∧ mixedStatus.preset_mode = prevStatus.preset_mode := by
  refine ⟨rfl, by decide, by decide⟩

/-- C2, amended: when decoding fails before the first field assignment
— in particular on any payload shorter than 8 bytes, such as the
length-5 payload — no stored field is mutated; and on success every
field of the exposed status comes from the single payload (the result
does not depend on the previously stored status). A 15-byte payload
with unmatched discriminator bytes, however, fails after replacing the
temperature, time and fan fields, so the stored status can mix two
notifications (see the counterexample). -/
theorem C2_theorem :
    (∀ (s : DeviceStatus) (now : ℕ) (v : List ℕ), v.length < 8 →
      handle_data s now v = Except.error s)
  ∧ (∀ (now : ℕ) (v : List ℕ) (s s2 sr : DeviceStatus),
      handle_data s now v = Except.ok sr → handle_data s2 now v = Except.ok sr) := by
  constructor
  · intro s now v h
    have h7 : v[7]? = none := by
      rw [List.getElem?_eq_none_iff]
      omega
    simp [handle_data, get_current_temperature, h7]
  · intro now v s s2 sr h
    rw [handle_data_ok_iff] at h ⊢
    exact h

/-- C2, witness: the length-5 payload leaves the stored status intact,
and a well-formed payload decodes to the same status from two different
prior states. -/
theorem C2_witness :
    handle_data prevStatus 0 shortPayload = Except.error prevStatus
  ∧ handle_data initialStatus 1 okPayload = Except.ok okStatus :=
  ⟨C2_theorem.1 prevStatus 0 shortPayload (by decide),
   C2_theorem.2 1 okPayload prevStatus initialStatus okStatus (by rfl)⟩

/-- C3, counterexample: at temperature byte 43 (= 0x2B) the code
decodes 70 °F, but the claim's formula with integer division gives 71:
the rounding applies to the whole expression with exact division, not
after an integer division. -/
theorem C3_counterexample :
    get_current_temperature c3Payload = some 70
  ∧ get_current_temperature c3Payload ≠ some (specTempFormulaC3 43) := by
  refine ⟨rfl, by decide⟩

/-- C3, amended: for every payload long enough to carry the byte (so in
particular for every payload of length at least 15) the decoded current
temperature is `((b - 0x26) + 66) - round((b - 0x26)/9)` with the
division exact and the rounding to nearest, in closed integer form
`tempNearest`; the target temperature is the identical formula applied
to `payload[8]`. -/
theorem C3_theorem :
    (∀ (v : List ℕ) (b : ℕ), v[7]? = some b → b < 256 →
      get_current_temperature v = some (tempNearest b))
  ∧ (∀ (v : List ℕ) (b : ℕ), v[8]? = some b → b < 256 →
      get_target_temperature v = some (tempNearest b)) := by
  constructor
  · intro v b h hb
    simp [get_current_temperature, h, tempFromByte_eq_tempNearest b hb]
  · intro v b h hb
    simp [get_target_temperature, h, tempFromByte_eq_tempNearest b hb]

/-- C3, witness: the amended formula evaluated on the fixture payload
(bytes 43 and 38). -/
theorem C3_witness :
    get_current_temperature c3Payload = some (tempNearest 43)
  ∧ get_target_temperature c3Payload = some (tempNearest 38) :=
  ⟨C3_theorem.1 c3Payload 43 rfl (by decide),
   C3_theorem.2 c3Payload 38 rfl (by decide)⟩

/-- C4, confirmed: whenever bytes 13 and 14 exist (in particular for
every payload of length at least 15), the decoded preset is exactly the
claim's discriminator table: 0x34 Cool, 0x56 Turbo, 0x3e Dry, 0x43
ExtendedHeat, 0x20/0x21/0x22 Memory1/2/3, and the ambiguous 0x50
resolved by byte 13 (0x14 Off, 0x2d Heat); anything else yields no
preset rather than a default. -/
theorem C4_theorem :
    ∀ (v : List ℕ) (b13 b14 : ℕ), v[13]? = some b13 → v[14]? = some b14 →
      get_preset_mode v = some (specPresetTable b13 b14) := by
  intro v b13 b14 h13 h14
  simp only [get_preset_mode, h13, h14, Option.getD_some, presetFromBytes_eq_spec]

/-- C4, witness: the Off payload (bytes 0x14, 0x50). -/
theorem C4_witness :
    get_preset_mode okPayload = some (specPresetTable 0x14 0x50) :=
  C4_theorem okPayload 0x14 0x50 rfl rfl

/-- C5, confirmed: the command encoders are pure functions producing
exactly the claimed byte sequences while connected — SetMode
`[0x01, modeByte]`; SetTime `[0x02, minutes // 60, minutes % 60]` with
no bounds validation; SetTemperature `[0x03, tempByte]` with the
claim's integer-division formula on well-formed (66–109 °F)
temperatures; SetFan `[0x07, round(percent/5) - 1]` on well-formed
percents. -/
theorem C5_theorem :
    (∀ mode : ℤ, set_mode true mode = [[0x01, mode]])
  ∧ (∀ minutes : ℤ,
      set_time true minutes = [[0x02, Int.fdiv minutes 60, Int.fmod minutes 60]])
  ∧ (∀ temp : ℤ, 66 ≤ temp → temp ≤ 109 →
      async_set_temperature true temp = [[0x03, specTempByte temp]])
  ∧ (∀ p : ℤ, 0 ≤ p → p ≤ 100 →
      async_set_fan_mode true p = [[0x07, roundNearest ((p : Frac) / 5) - 1]]) := by
  refine ⟨fun mode => rfl, fun minutes => rfl, ?_, ?_⟩
  · intro temp h1 h2
    obtain ⟨n, hn, rfl⟩ : ∃ n : ℕ, n < 44 ∧ temp = 66 + (n : ℤ) :=
      ⟨(temp - 66).toNat, by omega, by omega⟩
    simp [async_set_temperature, send_command, temp_byte_eq_spec n hn]
  · intro p h1 h2
    obtain ⟨n, hn, rfl⟩ : ∃ n : ℕ, n < 101 ∧ p = (n : ℤ) :=
      ⟨p.toNat, by omega, by omega⟩
    unfold async_set_fan_mode
    rw [if_pos ⟨h1, h2⟩]
    simp [send_command, pyRound_div5_eq n hn]

/-- C5, witness: the contract evaluated at mode byte 1, 600 minutes,
72 °F (the claim's own example) and 50 percent. -/
theorem C5_witness :
    set_mode true 1 = [[0x01, 1]]
  ∧ set_time true 600 = [[0x02, Int.fdiv 600 60, Int.fmod 600 60]]
  ∧ async_set_temperature true 72 = [[0x03, specTempByte 72]]
  ∧ async_set_fan_mode true 50 = [[0x07, roundNearest (((50 : ℤ) : Frac) / 5) - 1]] :=
  ⟨C5_theorem.1 1, C5_theorem.2.1 600,
   C5_theorem.2.2.1 72 (by decide) (by decide),
   C5_theorem.2.2.2 50 (by decide) (by decide)⟩

/-- C6, counterexample: a percent of 0 does not resolve to Min —
Python's `if not fan_pct` treats 0 like an absent value, so the
resolved level is `None`. -/
theorem C6_counterexample :
    ¬ (FanMode.get_fan_mode (some 0) = some FanMode.min) := by decide

/-- C6, amended: an absent percent or a percent of exactly 0 resolves
to no level; every other percent resolves to the lowest-valued tier
whose threshold (Min 10, Low 25, Medium 50, High 75, Max 100) is at
least the percent — 10 Min, 11 Low, 50 Medium, 75 High, 100 Max — and
a percent above 100 resolves to no level rather than failing. -/
theorem C6_theorem :
    FanMode.get_fan_mode none = none
  ∧ FanMode.get_fan_mode (some 0) = none
  ∧ FanMode.get_fan_mode (some 10) = some FanMode.min
  ∧ FanMode.get_fan_mode (some 11) = some FanMode.low
  ∧ FanMode.get_fan_mode (some 50) = some FanMode.medium
  ∧ FanMode.get_fan_mode (some 75) = some FanMode.high
  ∧ FanMode.get_fan_mode (some 100) = some FanMode.max
  ∧ (∀ p : ℤ, 100 < p → FanMode.get_fan_mode (some p) = none)
  ∧ (∀ p : ℤ, p ≠ 0 → p ≤ 10 → FanMode.get_fan_mode (some p) = some FanMode.min)
  ∧ (∀ p : ℤ, 10 < p → p ≤ 25 → FanMode.get_fan_mode (some p) = some FanMode.low)
  ∧ (∀ p : ℤ, 25 < p → p ≤ 50 → FanMode.get_fan_mode (some p) = some FanMode.medium)
  ∧ (∀ p : ℤ, 50 < p → p ≤ 75 → FanMode.get_fan_mode (some p) = some FanMode.high)
  ∧ (∀ p : ℤ, 75 < p → p ≤ 100 → FanMode.get_fan_mode (some p) = some FanMode.max) := by
  refine ⟨rfl, rfl, rfl, rfl, rfl, rfl, rfl, ?_, ?_, ?_, ?_, ?_, ?_⟩
  · intro p h1
    simp only [FanMode.get_fan_mode]
    rw [if_neg (by omega : ¬ (p = 0)), if_neg (by omega : ¬ (p ≤ 10)),
      if_neg (by omega : ¬ (p ≤ 25)), if_neg (by omega : ¬ (p ≤ 50)),
      if_neg (by omega : ¬ (p ≤ 75)), if_neg (by omega : ¬ (p ≤ 100))]
  · intro p h1 h2
    simp only [FanMode.get_fan_mode]
    rw [if_neg h1, if_pos h2]
  · intro p h1 h2
    simp only [FanMode.get_fan_mode]
    rw [if_neg (by omega : ¬ (p = 0)), if_neg (by omega : ¬ (p ≤ 10)), if_pos h2]
  · intro p h1 h2
    simp only [FanMode.get_fan_mode]
    rw [if_neg (by omega : ¬ (p = 0)), if_neg (by omega : ¬ (p ≤ 10)),
      if_neg (by omega : ¬ (p ≤ 25)), if_pos h2]
  · intro p h1 h2
    simp only [FanMode.get_fan_mode]
    rw [if_neg (by omega : ¬ (p = 0)), if_neg (by omega : ¬ (p ≤ 10)),
      if_neg (by omega : ¬ (p ≤ 25)), if_neg (by omega : ¬ (p ≤ 50)), if_pos h2]
  · intro p h1 h2
    simp only [FanMode.get_fan_mode]
    rw [if_neg (by omega : ¬ (p = 0)), if_neg (by omega : ¬ (p ≤ 10)),
      if_neg (by omega : ¬ (p ≤ 25)), if_neg (by omega : ¬ (p ≤ 50)),
      if_neg (by omega : ¬ (p ≤ 75)), if_pos h2]

/-- C6, witness: the out-of-range rule at 101 and the lowest-tier rule
at 7. -/
theorem C6_witness :
    FanMode.get_fan_mode (some 101) = none
  ∧ FanMode.get_fan_mode (some 7) = some FanMode.min :=
  ⟨C6_theorem.2.2.2.2.2.2.2.1 101 (by decide),
   C6_theorem.2.2.2.2.2.2.2.2.1 7 (by decide) (by decide)⟩

/-- C7, confirmed: `connect` makes at most `maxAttempts` attempts (with
the source default 10); its outcome ignores errors of the defensive
disconnects (they are swallowed); if the first transport success is
attempt k (0-based) within the budget it stops right there, having
slept 10, 20, ..., k*10 seconds after the failed attempts and
registering the disconnect handler; and if the transport always fails
it makes exactly `maxAttempts` attempts and fails carrying the device
address and the attempt count. -/
theorem C7_theorem :
    (∀ (stub dd : ℕ → Bool) (mac : String) (n : ℕ),
      (connect stub dd mac n).attemptsMade ≤ n)
  ∧ (∀ (stub dd dd2 : ℕ → Bool) (mac : String) (n : ℕ),
      connect stub dd mac n = connect stub dd2 mac n)
  ∧ (∀ (stub dd : ℕ → Bool) (mac : String),
      connectDefault stub dd mac = connect stub dd mac 10)
  ∧ (∀ (stub dd : ℕ → Bool) (mac : String) (k n : ℕ),
      k < n → stub k = true → (∀ j, j < k → stub j = false) →
      connect stub dd mac n = ⟨k + 1, backoffWaits k, true, true, none⟩)
  ∧ (∀ (stub dd : ℕ → Bool) (mac : String) (n : ℕ), (∀ i, stub i = false) →
      connect stub dd mac n = ⟨n, backoffWaits n, false, false, some (mac, n)⟩) := by
  refine ⟨?_, ?_, fun stub dd mac => rfl, ?_, ?_⟩
  · intro stub dd mac n
    exact connectGo_attempts_le stub dd n 0
  · intro stub dd dd2 mac n
    simp [connect, connectGo_dd_irrelevant stub dd dd2 n 0]
  · intro stub dd mac k n hk hs hf
    have h := connectGo_success stub dd k 0 n hk (by simpa using hs)
      (fun j hj => by simpa using hf j hj)
    simp [connect, h, backoffWaitsFrom_zero]
  · intro stub dd mac n hall
    have h := connectGo_allfail stub dd hall n 0
    simp [connect, h, backoffWaitsFrom_zero]

/-- C7, witness: a stub succeeding on the third call connects after 3
attempts with waits 10 and 20; an always-failing stub with
`maxAttempts=3` fails after exactly 3 attempts carrying the address and
the count, even when the defensive disconnects raise. -/
theorem C7_witness :
    connect (fun i => decide (i = 2)) (fun _ => false) testMac 4
      = ⟨3, backoffWaits 2, true, true, none⟩
  ∧ connect (fun _ => false) (fun _ => true) testMac 3
      = ⟨3, backoffWaits 3, false, false, some (testMac, 3)⟩ :=
  ⟨C7_theorem.2.2.2.1 (fun i => decide (i = 2)) (fun _ => false) testMac 2 4
      (by decide) (by decide) (by decide),
   C7_theorem.2.2.2.2 (fun _ => false) (fun _ => true) testMac 3 (fun i => rfl)⟩

/-- C8, counterexample: it is not true that no disconnected callback is
registered before the transport first reports connected — `__init__`
already passes `disconnected_callback=self.on_disconnect` to the
`BleakClient` constructor, so the freshly constructed session (empty
event history, hence no successful connect yet) has one registered. -/
theorem C8_counterexample :
    ¬ (∀ evs : List SEvent, SEvent.connectOk ∉ evs → srun evs = false) := by
  intro h
  have := h [] (by simp)
  simp [srun, initCallbackRegistered] at this

/-- C8, amended: the constructor itself registers the
unexpected-disconnect handler, so the handler is registered from
construction on — in particular after any history of only failed
connect attempts, i.e. before the first success; what holds of the
connect routine is that its own `set_disconnected_callback`
registration happens exactly on success. -/
theorem C8_theorem :
    srun [] = true
  ∧ (∀ evs : List SEvent, (∀ e ∈ evs, e = SEvent.connectFail) → srun evs = true)
  ∧ (∀ (stub dd : ℕ → Bool) (mac : String) (n : ℕ),
      (connect stub dd mac n).callbackRegistered = (connect stub dd mac n).connected) := by
  refine ⟨rfl, ?_, fun stub dd mac n => rfl⟩
  intro evs h
  unfold srun
  rw [foldl_sstep_connectFail evs h]
  rfl

/-- C8, witness: after one failed connect attempt the callback from
construction is still registered. -/
theorem C8_witness :
    srun [SEvent.connectFail] = true :=
  C8_theorem.2.1 [SEvent.connectFail] (by decide)

/-- C9, confirmed: while not connected, every command entry point —
raw `send_command`, set mode, set timer, set fan, set temperature, the
HVAC-mode compound (mode then 600-minute timer) and the preset-mode
path — performs no GATT write at all, raises nothing and queues
nothing. -/
theorem C9_theorem :
    (∀ command : List ℤ, send_command false command = [])
  ∧ (∀ mode : ℤ, set_mode false mode = [])
  ∧ (∀ minutes : ℤ, set_time false minutes = [])
  ∧ (∀ p : ℤ, async_set_fan_mode false p = [])
  ∧ (∀ temp : ℤ, async_set_temperature false temp = [])
  ∧ (∀ mode_byte : ℤ, async_set_hvac_mode false mode_byte = [])
  ∧ (∀ mode_byte : ℤ, async_set_preset_mode false mode_byte = []) := by
  refine ⟨fun _ => rfl, fun _ => rfl, fun _ => rfl, ?_, fun _ => rfl,
    fun _ => rfl, fun _ => rfl⟩
  intro p
  unfold async_set_fan_mode
  split <;> rfl

/-- C10, confirmed: `async_set_fan_mode` guards the resolved percent:
outside 0–100 it returns without writing or raising; inside the range
it writes `[0x07, round(p/5) - 1]`, and for p in 0, 1, 2 the data byte
is -1 (one below the Min fan index). -/
theorem C10_theorem :
    (∀ p : ℤ, ¬ (0 ≤ p ∧ p ≤ 100) → async_set_fan_mode true p = [])
  ∧ (∀ p : ℤ, 0 ≤ p → p ≤ 100 →
      async_set_fan_mode true p = [[0x07, roundNearest ((p : Frac) / 5) - 1]])
  ∧ async_set_fan_mode true 0 = [[0x07, -1]]
  ∧ async_set_fan_mode true 1 = [[0x07, -1]]
  ∧ async_set_fan_mode true 2 = [[0x07, -1]] := by
  refine ⟨?_, ?_, rfl, rfl, rfl⟩
  · intro p h
    unfold async_set_fan_mode
    rw [if_neg h]
  · intro p h1 h2
    obtain ⟨n, hn, rfl⟩ : ∃ n : ℕ, n < 101 ∧ p = (n : ℤ) :=
      ⟨p.toNat, by omega, by omega⟩
    unfold async_set_fan_mode
    rw [if_pos ⟨h1, h2⟩]
    simp [send_command, pyRound_div5_eq n hn]

/-- C10, witness: 101 percent is silently dropped; 10 percent writes
the rounded byte. -/
theorem C10_witness :
    async_set_fan_mode true 101 = []
  ∧ async_set_fan_mode true 10 = [[0x07, roundNearest (((10 : ℤ) : Frac) / 5) - 1]] :=
  ⟨C10_theorem.1 101 (by decide), C10_theorem.2.1 10 (by decide) (by decide)⟩

end Bedjet
